import Mathlib

/-!
Verification of the multi-surface preference synchronization core of the
crossover repository (Tauri frontend, files src-frontend/main.ts and
src-frontend/settings.ts, plus one earlier revision of the settings module).
Numbers of the JavaScript runtime are modelled as rationals, DOM string
values as String, and every event handler as an explicit state transformer
that also returns the list of IPC requests and UI effects it issues, in
issue order.
-/

namespace Crossover

/-- The Preferences interface of main.ts lines 17-27: the replicated
aggregate carried by the bulk sync-settings notification. Note that the
interface has no reticle and no hide_on_ads field. -/
structure Preferences where
  crosshair : String
  size : ℚ
  opacity : ℚ
  color : String
  locked : Bool
  visible : Bool
  follow_mouse : Bool
  position_x : Option ℚ
  position_y : Option ℚ
  deriving DecidableEq, Repr

/-- Local state of the primary overlay surface (main.ts): the three
module-level mutable bindings (isLocked, isDragging, currentReticle) and
the DOM state written by the update functions through identifiers that are
declared in main.ts. imgSrc is crosshairImg.src; wrapperSize stands for
the crosshair-size custom property together with the image width and
height, which are always written together to the same value; appHiddenClass
is the hidden class on the app root toggled by the visibility listener. -/
structure MainState where
  isLocked : Bool
  isDragging : Bool
  currentReticle : String
  imgSrc : String
  wrapperSize : ℚ
  wrapperOpacity : ℚ
  wrapperColor : String
  appHiddenClass : Bool
  appLockedClass : Bool
  dragHandleHidden : Bool
  lockIndicatorHidden : Bool
  settingsButtonHidden : Bool
  deriving DecidableEq, Repr

/-- main.ts updateCrosshairImage (136-143): sets crosshairImg.src to the
crosshairs directory path of the file name. -/
def updateCrosshairImage (filename : String) (s : MainState) : MainState :=
  { s with imgSrc := "/crosshairs/" ++ filename }

/-- main.ts updateSize (145-151): writes the size custom property and the
image width and height. Lines 149-150 additionally reference sizeSlider and
sizeValue, which are not declared anywhere in main.ts (see the module scope
analysis further below); only the writes to identifiers that are in scope
are modelled as state. -/
def updateSize (size : ℚ) (s : MainState) : MainState :=
  { s with wrapperSize := size }

/-- main.ts updateOpacity (153-157): writes the wrapper opacity. Lines
155-156 reference opacitySlider and opacityValue, which are not declared in
main.ts; as with updateSize only the in-scope writes are modelled. -/
def updateOpacity (opacity : ℚ) (s : MainState) : MainState :=
  { s with wrapperOpacity := opacity }

/-- main.ts updateColor (159-164): writes the color custom property and the
reticle color (always together, to the same value). Lines 162-163 reference
colorPicker and colorInput, which are not declared in main.ts. -/
def updateColor (color : String) (s : MainState) : MainState :=
  { s with wrapperColor := color }

/-- main.ts updateLockState (166-178): stores the flag in isLocked and
toggles the locked, hidden classes of the app root, drag handle, lock
indicator and settings button. The one-shot animate class added when
locking self-clears after a timeout and is not part of the settled state. -/
def updateLockState (locked : Bool) (s : MainState) : MainState :=
  { s with
    isLocked := locked
    appLockedClass := locked
    dragHandleHidden := locked
    lockIndicatorHidden := !locked
    settingsButtonHidden := locked }

/-- Every identifier declared at module scope in src-frontend/main.ts: the
DOM element constants (33-50), the three mutable state bindings (56-58),
every function declaration, the sounds record (512) and the four names
imported at the top of the file. -/
def mainModuleScopeIds : List String :=
  ["app", "crosshairImg", "crosshairWrapper", "dragHandle", "lockIndicator",
   "reticle", "settingsButton", "chooserModal", "chooserClose", "chooserGrid",
   "btnImport", "aboutModal", "aboutClose", "toastContainer",
   "isLocked", "isDragging", "currentReticle",
   "setCrosshair", "getCrosshair", "setOpacity", "getOpacity", "setSize",
   "getSize", "setColor", "getColor", "toggleLock", "getLocked",
   "centerWindow", "moveToNextDisplay", "toggleVisibility",
   "getCrosshairList", "savePreferences", "resetPreferences",
   "createShadowWindow", "updateCrosshairImage", "updateSize",
   "updateOpacity", "updateColor", "updateLockState", "updateReticle",
   "showToast", "setupDragHandle", "openSettingsWindow",
   "setupSettingsButton", "setupChooserModal", "setupAboutModal",
   "loadCrosshairGrid", "createCrosshairItem", "setupEventListeners",
   "sounds", "preloadSounds", "playSound", "setupContextMenu",
   "setupLocalKeyboardShortcuts", "loadInitialState", "init",
   "invoke", "listen", "emit", "getCurrentWindow", "open"]

/-- Ambient browser globals referenced by main.ts that resolve without a
module-scope declaration. -/
def browserAmbientIds : List String :=
  ["document", "console", "setTimeout", "requestAnimationFrame", "Audio",
   "String", "Math", "parseInt"]

/-- Whether a free identifier of main.ts resolves: it is either declared at
module scope or an ambient browser global. -/
def resolvesInMain (x : String) : Bool :=
  mainModuleScopeIds.contains x || browserAmbientIds.contains x

/-- Free identifiers referenced by the body of updateSize in main.ts
(145-151), beyond its own parameter. -/
def updateSizeFreeIds : List String :=
  ["crosshairWrapper", "crosshairImg", "String", "sizeSlider", "sizeValue"]

/-- Free identifiers referenced by the body of updateOpacity in main.ts
(153-157). -/
def updateOpacityFreeIds : List String :=
  ["crosshairWrapper", "String", "Math", "opacitySlider", "opacityValue"]

/-- Free identifiers referenced by the body of updateColor in main.ts
(159-164). -/
def updateColorFreeIds : List String :=
  ["crosshairWrapper", "reticle", "colorPicker", "colorInput"]

/-- Free identifiers referenced by the body of updateLockState in main.ts
(166-178). -/
def updateLockStateFreeIds : List String :=
  ["isLocked", "app", "dragHandle", "lockIndicator", "settingsButton",
   "setTimeout"]

/-- Free identifiers referenced by the body of updateCrosshairImage in
main.ts (136-143). -/
def updateCrosshairImageFreeIds : List String :=
  ["crosshairImg", "console"]

/-- Free identifiers referenced by the visibility-changed listener body in
main.ts (461-463). -/
def visibilityListenerFreeIds : List String :=
  ["app"]

/-- Every identifier declared at module scope in src-frontend/settings.ts:
the DOM element constants (15-33), every function declaration and the six
names imported at the top of the file. -/
def settingsModuleScopeIds : List String :=
  ["crosshairGrid", "sizeSlider", "sizeValue", "opacitySlider",
   "opacityValue", "colorPicker", "colorInput", "reticleOptions",
   "btnCenter", "btnNextDisplay", "btnReset", "btnDuplicate", "btnImport",
   "toastContainer", "ctrlFollowMouse", "ctrlHideAds", "ctrlAutostart",
   "setCrosshair", "getCrosshair", "setOpacity", "getOpacity", "setSize",
   "getSize", "setColor", "getColor", "centerWindow", "moveToNextDisplay",
   "getCrosshairList", "savePreferences", "resetPreferences",
   "createShadowWindow", "getFollowMouse", "setFollowMouse",
   "getHideOnAds", "setHideOnAds", "getReticle", "setReticle",
   "importCrosshair", "updateSizeUI", "updateOpacityUI", "updateColorUI",
   "updateReticleUI", "updateToggleUI", "showToast", "loadCrosshairGrid",
   "createCrosshairItem", "setupEventListeners", "loadInitialState", "init",
   "invoke", "listen", "openDialog", "enable", "disable", "isEnabled"]

/-- Whether a call of updateCrosshairImage completes at runtime: true,
since every free identifier of its body resolves in main.ts. -/
def updateCrosshairImageCompletes : Bool :=
  updateCrosshairImageFreeIds.all resolvesInMain

/-- Whether a call of updateSize completes at runtime: false, since lines
149-150 reference sizeSlider and sizeValue, which do not resolve in
main.ts; the call throws a ReferenceError there, after the in-scope writes
of lines 146-148 already happened. -/
def updateSizeCompletes : Bool :=
  updateSizeFreeIds.all resolvesInMain

/-- Whether a call of updateOpacity completes at runtime: false, the
unresolved references of lines 155-156 follow the in-scope write of 154. -/
def updateOpacityCompletes : Bool :=
  updateOpacityFreeIds.all resolvesInMain

/-- Whether a call of updateColor completes at runtime: false, the
unresolved references of lines 162-163 follow the in-scope writes of
160-161. -/
def updateColorCompletes : Bool :=
  updateColorFreeIds.all resolvesInMain

/-- Whether a call of updateLockState completes at runtime: true. -/
def updateLockStateCompletes : Bool :=
  updateLockStateFreeIds.all resolvesInMain

/-- Exception-aware sequencing of the calls in a listener body: while no
call has thrown, run the next update (its in-scope writes precede its
first unresolved reference) and record whether it completed; once a call
has thrown, the rest of the body is not reached and the state stays as the
throwing call left it. -/
def seqCall (r : MainState × Bool) (f : MainState → MainState) (completes : Bool) :
    MainState × Bool :=
  if r.2 then (f r.1, completes) else r

/-- The sync-settings listener body of main.ts (498-505) under runtime
exception semantics: the five update calls in source order, each guarded by
the completion of the calls before it. The second component tells whether
the whole body completed; it is false, because updateSize throws. -/
def syncSettingsRun (p : Preferences) (s : MainState) : MainState × Bool :=
  seqCall (seqCall (seqCall (seqCall (seqCall (s, true)
    (updateCrosshairImage p.crosshair) updateCrosshairImageCompletes)
    (updateSize p.size) updateSizeCompletes)
    (updateOpacity p.opacity) updateOpacityCompletes)
    (updateColor p.color) updateColorCompletes)
    (updateLockState p.locked) updateLockStateCompletes

/-- The state the sync-settings listener (main.ts 498-505) leaves behind at
runtime: the crosshair image and the size wrapper writes are applied, then
the ReferenceError thrown inside updateSize aborts the listener, so
opacity, color and locked are never applied. -/
def syncSettingsHandler (p : Preferences) (s : MainState) : MainState :=
  (syncSettingsRun p s).1

/-- The aggregate of the bulk hydration test in the specification, with
visible set to true and default placement. -/
def c1AggEx : Preferences :=
  { crosshair := "dot.png", size := 20, opacity := 4 / 5, color := "#FF00FF",
    locked := false, visible := true, follow_mouse := false,
    position_x := none, position_y := none }

/-- A just-created shadow surface whose app root still carries the hidden
class and whose reticle is none. -/
def c1StateEx : MainState :=
  { isLocked := true, isDragging := false, currentReticle := "none",
    imgSrc := "/crosshairs/crosshair-default.png", wrapperSize := 10,
    wrapperOpacity := 1, wrapperColor := "#00FF00", appHiddenClass := true,
    appLockedClass := true, dragHandleHidden := true,
    lockIndicatorHidden := false, settingsButtonHidden := true }

/-- C1 counterexample: the aggregate delivered on the bulk sync topic has
visible equal to true, yet the surface hydrated from it still carries the
hidden class afterwards: the visible field of the aggregate is not applied
by the sync-settings handler, so the handler does not fully replace the
local state and the hydrated shadow surface does not hold exactly the
aggregate from the notification. -/
theorem c1_counterexample :
    c1AggEx.visible = true ∧
      (syncSettingsHandler c1AggEx c1StateEx).appHiddenClass = true :=
  ⟨rfl, rfl⟩

/-- C1 (amended): at runtime the sync-settings handler applies only the
crosshair image source and the size wrapper writes of the received
aggregate; the listener body then aborts on the ReferenceError inside
updateSize, so the opacity, color and locked fields are fetched from the
payload but never applied, and the visible field, the reticle (not part of
the payload type) and the positions are never referenced by the handler at
all: every other component of the local state keeps its prior value. -/
theorem c1_sync_runtime_truncated_application (p : Preferences) (s : MainState) :
    (syncSettingsHandler p s).imgSrc = "/crosshairs/" ++ p.crosshair ∧
    (syncSettingsHandler p s).wrapperSize = p.size ∧
    (syncSettingsRun p s).2 = false ∧
    (syncSettingsHandler p s).wrapperOpacity = s.wrapperOpacity ∧
    (syncSettingsHandler p s).wrapperColor = s.wrapperColor ∧
    (syncSettingsHandler p s).isLocked = s.isLocked ∧
    (syncSettingsHandler p s).appHiddenClass = s.appHiddenClass ∧
    (syncSettingsHandler p s).currentReticle = s.currentReticle ∧
    (syncSettingsHandler p s).appLockedClass = s.appLockedClass ∧
    (syncSettingsHandler p s).dragHandleHidden = s.dragHandleHidden ∧
    (syncSettingsHandler p s).lockIndicatorHidden = s.lockIndicatorHidden ∧
    (syncSettingsHandler p s).settingsButtonHidden = s.settingsButtonHidden ∧
    (syncSettingsHandler p s).isDragging = s.isDragging :=
  ⟨rfl, rfl, rfl, rfl, rfl, rfl, rfl, rfl, rfl, rfl, rfl, rfl, rfl⟩

/-- The six field-level notification topics that the primary surface
subscribes to in main.ts setupEventListeners (434-463). -/
inductive Topic
  | lock
  | crosshair
  | opacity
  | size
  | color
  | visibility
  deriving DecidableEq, Repr

/-- A field-level bus notification with its typed payload, as listed in
main.ts setupEventListeners (434-463). -/
inductive Notif
  | lockChanged (b : Bool)
  | crosshairChanged (c : String)
  | opacityChanged (v : ℚ)
  | sizeChanged (v : ℚ)
  | colorChanged (c : String)
  | visibilityChanged (b : Bool)
  deriving DecidableEq, Repr

/-- The topic a notification arrives on. -/
def Notif.topic : Notif → Topic
  | .lockChanged _ => .lock
  | .crosshairChanged _ => .crosshair
  | .opacityChanged _ => .opacity
  | .sizeChanged _ => .size
  | .colorChanged _ => .color
  | .visibilityChanged _ => .visibility

/-- Dispatch of one field-level notification on the primary surface,
following the registered listeners of main.ts setupEventListeners: the
lock listener calls updateLockState, the crosshair listener
updateCrosshairImage, and so on; the visibility listener toggles the
hidden class of the app root to the negation of the payload (461-463). -/
def applyNotif (s : MainState) (n : Notif) : MainState :=
  match n with
  | .lockChanged b => updateLockState b s
  | .crosshairChanged c => updateCrosshairImage c s
  | .opacityChanged v => updateOpacity v s
  | .sizeChanged v => updateSize v s
  | .colorChanged c => updateColor c s
  | .visibilityChanged b => { s with appHiddenClass := !b }

/-- Delivery of a finite sequence of field-level notifications, in arrival
order. -/
def applyNotifs (s : MainState) (l : List Notif) : MainState :=
  l.foldl applyNotif s

/-- Payloads of the lock topic, in arrival order. -/
def lockPayloads : List Notif → List Bool
  | [] => []
  | .lockChanged b :: rest => b :: lockPayloads rest
  | _ :: rest => lockPayloads rest

/-- Payloads of the crosshair topic, in arrival order. -/
def crossPayloads : List Notif → List String
  | [] => []
  | .crosshairChanged c :: rest => c :: crossPayloads rest
  | _ :: rest => crossPayloads rest

/-- Payloads of the opacity topic, in arrival order. -/
def opacityPayloads : List Notif → List ℚ
  | [] => []
  | .opacityChanged v :: rest => v :: opacityPayloads rest
  | _ :: rest => opacityPayloads rest

/-- Payloads of the size topic, in arrival order. -/
def sizePayloads : List Notif → List ℚ
  | [] => []
  | .sizeChanged v :: rest => v :: sizePayloads rest
  | _ :: rest => sizePayloads rest

/-- Payloads of the color topic, in arrival order. -/
def colorPayloads : List Notif → List String
  | [] => []
  | .colorChanged c :: rest => c :: colorPayloads rest
  | _ :: rest => colorPayloads rest

/-- Payloads of the visibility topic, in arrival order. -/
def visPayloads : List Notif → List Bool
  | [] => []
  | .visibilityChanged b :: rest => b :: visPayloads rest
  | _ :: rest => visPayloads rest

/-- Normal form of notification delivery: every field of the final state is
the image of the payload of the last notification received on the topic
governing that field, defaulting to the initial value when the topic never
fired; fields not governed by any listener are untouched. -/
theorem applyNotifs_normal_form (l : List Notif) (s : MainState) :
    applyNotifs s l =
      { isLocked := (lockPayloads l).getLastD s.isLocked
        isDragging := s.isDragging
        currentReticle := s.currentReticle
        imgSrc := ((crossPayloads l).map (fun c => "/crosshairs/" ++ c)).getLastD s.imgSrc
        wrapperSize := (sizePayloads l).getLastD s.wrapperSize
        wrapperOpacity := (opacityPayloads l).getLastD s.wrapperOpacity
        wrapperColor := (colorPayloads l).getLastD s.wrapperColor
        appHiddenClass := ((visPayloads l).map Bool.not).getLastD s.appHiddenClass
        appLockedClass := (lockPayloads l).getLastD s.appLockedClass
        dragHandleHidden := (lockPayloads l).getLastD s.dragHandleHidden
        lockIndicatorHidden := ((lockPayloads l).map Bool.not).getLastD s.lockIndicatorHidden
        settingsButtonHidden := (lockPayloads l).getLastD s.settingsButtonHidden } := by
  induction l generalizing s with
  | nil => rfl
  | cons n rest ih =>
    cases n <;>
      (simp only [applyNotifs, List.foldl_cons] at ih ⊢
       rw [ih]
       simp only [applyNotif, updateLockState, updateCrosshairImage,
         updateOpacity, updateSize, updateColor, lockPayloads, crossPayloads,
         opacityPayloads, sizePayloads, colorPayloads, visPayloads,
         List.map_cons, List.getLastD_cons])

/-- The lock payload sequence only depends on the subsequence of
notifications arriving on the lock topic. -/
theorem lockPayloads_filter (l : List Notif) :
    lockPayloads (l.filter fun n => decide (n.topic = Topic.lock)) = lockPayloads l := by
  induction l with
  | nil => rfl
  | cons n rest ih => cases n <;> first
    | exact ih
    | exact congrArg (List.cons _) ih

/-- The crosshair payload sequence only depends on the subsequence of
notifications arriving on the crosshair topic. -/
theorem crossPayloads_filter (l : List Notif) :
    crossPayloads (l.filter fun n => decide (n.topic = Topic.crosshair)) = crossPayloads l := by
  induction l with
  | nil => rfl
  | cons n rest ih => cases n <;> first
    | exact ih
    | exact congrArg (List.cons _) ih

/-- The opacity payload sequence only depends on the subsequence of
notifications arriving on the opacity topic. -/
theorem opacityPayloads_filter (l : List Notif) :
    opacityPayloads (l.filter fun n => decide (n.topic = Topic.opacity)) = opacityPayloads l := by
  induction l with
  | nil => rfl
  | cons n rest ih => cases n <;> first
    | exact ih
    | exact congrArg (List.cons _) ih

/-- The size payload sequence only depends on the subsequence of
notifications arriving on the size topic. -/
theorem sizePayloads_filter (l : List Notif) :
    sizePayloads (l.filter fun n => decide (n.topic = Topic.size)) = sizePayloads l := by
  induction l with
  | nil => rfl
  | cons n rest ih => cases n <;> first
    | exact ih
    | exact congrArg (List.cons _) ih

/-- The color payload sequence only depends on the subsequence of
notifications arriving on the color topic. -/
theorem colorPayloads_filter (l : List Notif) :
    colorPayloads (l.filter fun n => decide (n.topic = Topic.color)) = colorPayloads l := by
  induction l with
  | nil => rfl
  | cons n rest ih => cases n <;> first
    | exact ih
    | exact congrArg (List.cons _) ih

/-- The visibility payload sequence only depends on the subsequence of
notifications arriving on the visibility topic. -/
theorem visPayloads_filter (l : List Notif) :
    visPayloads (l.filter fun n => decide (n.topic = Topic.visibility)) = visPayloads l := by
  induction l with
  | nil => rfl
  | cons n rest ih => cases n <;> first
    | exact ih
    | exact congrArg (List.cons _) ih

/-- C3: two finite notification sequences that agree on the relative order
of notifications within every topic (equal per-topic subsequences) drive
the primary surface to the same final local state, and each field of that
final state equals the payload of the last notification received on its
topic (last write wins per field), defaulting to the initial value when the
topic never fired. -/
theorem c3_convergence (l₁ l₂ : List Notif) (s : MainState)
    (h : ∀ t : Topic,
      (l₁.filter fun n => decide (n.topic = t)) = (l₂.filter fun n => decide (n.topic = t))) :
    applyNotifs s l₁ = applyNotifs s l₂ ∧
    (applyNotifs s l₁).isLocked = (lockPayloads l₁).getLastD s.isLocked ∧
    (applyNotifs s l₁).imgSrc
      = ((crossPayloads l₁).map fun c => "/crosshairs/" ++ c).getLastD s.imgSrc ∧
    (applyNotifs s l₁).wrapperOpacity = (opacityPayloads l₁).getLastD s.wrapperOpacity ∧
    (applyNotifs s l₁).wrapperSize = (sizePayloads l₁).getLastD s.wrapperSize ∧
    (applyNotifs s l₁).wrapperColor = (colorPayloads l₁).getLastD s.wrapperColor ∧
    (applyNotifs s l₁).appHiddenClass
      = ((visPayloads l₁).map Bool.not).getLastD s.appHiddenClass := by
  have hlock : lockPayloads l₁ = lockPayloads l₂ := by
    rw [← lockPayloads_filter l₁, ← lockPayloads_filter l₂, h]
  have hcross : crossPayloads l₁ = crossPayloads l₂ := by
    rw [← crossPayloads_filter l₁, ← crossPayloads_filter l₂, h]
  have hop : opacityPayloads l₁ = opacityPayloads l₂ := by
    rw [← opacityPayloads_filter l₁, ← opacityPayloads_filter l₂, h]
  have hsz : sizePayloads l₁ = sizePayloads l₂ := by
    rw [← sizePayloads_filter l₁, ← sizePayloads_filter l₂, h]
  have hcol : colorPayloads l₁ = colorPayloads l₂ := by
    rw [← colorPayloads_filter l₁, ← colorPayloads_filter l₂, h]
  have hvis : visPayloads l₁ = visPayloads l₂ := by
    rw [← visPayloads_filter l₁, ← visPayloads_filter l₂, h]
  refine ⟨?_, ?_, ?_, ?_, ?_, ?_, ?_⟩
  · rw [applyNotifs_normal_form, applyNotifs_normal_form, hlock, hcross, hop, hsz, hcol, hvis]
  all_goals rw [applyNotifs_normal_form]

/-- A sample initial surface state used by concrete witnesses. -/
def sExample : MainState :=
  { isLocked := false, isDragging := false, currentReticle := "none",
    imgSrc := "/crosshairs/crosshair-default.png", wrapperSize := 32,
    wrapperOpacity := 1, wrapperColor := "#00FF00", appHiddenClass := false,
    appLockedClass := false, dragHandleHidden := false,
    lockIndicatorHidden := true, settingsButtonHidden := false }

/-- A sample notification sequence. -/
def c3L1 : List Notif :=
  [.sizeChanged 10, .colorChanged "#112233", .sizeChanged 24, .lockChanged true]

/-- A permutation of the sample sequence that keeps the relative order of
the two size notifications. -/
def c3L2 : List Notif :=
  [.colorChanged "#112233", .lockChanged true, .sizeChanged 10, .sizeChanged 24]

/-- Witness for C3 at a concrete pair of reordered sequences. -/
theorem c3_convergence_witness :
    (∀ t : Topic,
      (c3L1.filter fun n => decide (n.topic = t)) = (c3L2.filter fun n => decide (n.topic = t))) ∧
    applyNotifs sExample c3L1 = applyNotifs sExample c3L2 :=
  ⟨by intro t; cases t <;> rfl,
   (c3_convergence c3L1 c3L2 sExample (by intro t; cases t <;> rfl)).1⟩

/-- Tag names distinguished by the drag guard of main.ts startDrag
(245-252); every other tag name behaves alike and is collapsed into two
representative constructors. -/
inductive Tag
  | button
  | input
  | div
  | other
  deriving DecidableEq, Repr

/-- The event target of a mousedown: its tag name, and whether the closest
lookup for a button ancestor succeeds (which includes the element itself
being a button). -/
structure Target where
  tag : Tag
  closestButton : Bool
  deriving DecidableEq, Repr

/-- Requests and UI operations issued by the primary surface, in issue
order: the window position mutation of the mousemove handler (270-281), the
save commit of the mouseup handler (283-289), the lock toggle request and
the two store reads plus the modal unhide of the open-chooser listener
(472-485) via loadCrosshairGrid (376-399). -/
inductive Cmd
  | setWindowPosition (x y : ℚ)
  | savePreferences
  | toggleLock
  | getCrosshairList
  | getCrosshair
  | showChooserModal
  deriving DecidableEq, Repr

/-- Events processed by the primary surface: field-level bus notifications,
the bulk sync notification, and the pointer events wired by
setupDragHandle. For a mousedown, sx and sy are event.screenX and screenY,
and wx and wy are the result of the outerPosition read awaited inside
startDrag. -/
inductive UiEvent
  | notif (n : Notif)
  | sync (p : Preferences)
  | mouseDown (t : Target) (sx sy wx wy : ℚ)
  | mouseMove (sx sy : ℚ)
  | mouseUp
  deriving DecidableEq, Repr

/-- The four drag-local bindings captured by the setupDragHandle closure of
main.ts (235-238). -/
structure DragLocals where
  startX : ℚ
  startY : ℚ
  windowX : ℚ
  windowY : ℚ
  deriving DecidableEq, Repr

/-- Full state of the primary surface: the module state, the drag closure
locals and the grabbing cursor flag on the document body. -/
structure SurfaceState where
  main : MainState
  drag : DragLocals
  cursorGrabbing : Bool
  deriving DecidableEq, Repr

/-- One step of the primary surface event loop. The mousedown branch is
startDrag (241-264): it returns early while the cached lock flag is set,
returns early on interactive targets, and otherwise records the drag start
and enables dragging. The mousemove branch (270-281) issues a setPosition
only while dragging; the mouseup branch (283-289) ends the drag and issues
a single save commit. -/
def step (s : SurfaceState) (e : UiEvent) : SurfaceState × List Cmd :=
  match e with
  | .notif n => ({ s with main := applyNotif s.main n }, [])
  | .sync p => ({ s with main := syncSettingsHandler p s.main }, [])
  | .mouseDown t sx sy wx wy =>
    if s.main.isLocked then (s, [])
    else if t.tag == Tag.button || t.tag == Tag.input || t.closestButton then (s, [])
    else
      ({ s with
          main := { s.main with isDragging := true }
          drag := { startX := sx, startY := sy, windowX := wx, windowY := wy }
          cursorGrabbing := true }, [])
  | .mouseMove sx sy =>
    if s.main.isDragging then
      (s, [Cmd.setWindowPosition (s.drag.windowX + (sx - s.drag.startX))
            (s.drag.windowY + (sy - s.drag.startY))])
    else (s, [])
  | .mouseUp =>
    if s.main.isDragging then
      ({ s with main := { s.main with isDragging := false }, cursorGrabbing := false },
        [Cmd.savePreferences])
    else (s, [])

/-- The state component of one event loop step. -/
def stepSt (s : SurfaceState) (e : UiEvent) : SurfaceState :=
  (step s e).1

/-- State after processing a finite event sequence in order. -/
def runSt (s : SurfaceState) (evs : List UiEvent) : SurfaceState :=
  evs.foldl stepSt s

/-- Concatenated requests issued while processing a finite event sequence. -/
def runOut (s : SurfaceState) : List UiEvent → List Cmd
  | [] => []
  | e :: rest => (step s e).2 ++ runOut (stepSt s e) rest

/-- The events excluded from a lock interval: a lock notification carrying
false (whose handler writes false into the cached flag), and a bulk sync
notification whose aggregate is unlocked. The sync listener body contains
the only other updateLockState call site, so it is excluded conservatively;
under the runtime exception semantics that call is not even reached, and no
other handler writes the flag. -/
def clearsLock : UiEvent → Bool
  | .notif (.lockChanged b) => !b
  | .sync p => !p.locked
  | _ => false

/-- A single step keeps the cached lock flag set unless the event is one of
the two flag-clearing notifications. -/
theorem stepSt_lock_preserved (s : SurfaceState) (e : UiEvent)
    (hs : s.main.isLocked = true) (he : clearsLock e = false) :
    (stepSt s e).main.isLocked = true := by
  cases e with
  | notif n =>
    cases n <;>
      simp_all [stepSt, step, applyNotif, updateLockState, updateCrosshairImage,
        updateOpacity, updateSize, updateColor, clearsLock]
  | sync p => exact hs
  | mouseDown t sx sy wx wy => simp [stepSt, step, hs]
  | mouseMove sx sy => cases h : s.main.isDragging <;> simp [stepSt, step, h, hs]
  | mouseUp => cases h : s.main.isDragging <;> simp [stepSt, step, h, hs]

/-- Processing any sequence free of flag-clearing notifications keeps the
cached lock flag set. -/
theorem runSt_lock_preserved : ∀ (evs : List UiEvent) (s : SurfaceState),
    s.main.isLocked = true → (∀ e ∈ evs, clearsLock e = false) →
    (runSt s evs).main.isLocked = true
  | [], _, hs, _ => hs
  | e :: rest, s, hs, h =>
    runSt_lock_preserved rest (stepSt s e)
      (stepSt_lock_preserved s e hs (h e (List.mem_cons_self e rest)))
      (fun x hx => h x (List.mem_cons_of_mem e hx))

/-- Running an event sequence splits over concatenation. -/
theorem runSt_append (s : SurfaceState) (l₁ l₂ : List UiEvent) :
    runSt s (l₁ ++ l₂) = runSt (runSt s l₁) l₂ := by
  simp [runSt, List.foldl_append]

/-- C4: after the primary surface processes a lock notification carrying
true, and as long as it has not processed any notification whose handler
clears the cached lock flag (a lock notification carrying false, or a bulk
sync whose aggregate is unlocked), the cached flag is still set when a
mousedown arrives, and that mousedown is rejected by startDrag: the state
is completely unchanged (in particular the dragging flag is not set) and no
window position change or any other request is issued. -/
theorem c4_lock_gates_mousedown (evs : List UiEvent) (s0 : SurfaceState)
    (i j : ℕ) (hij : i < j) (hj : j < evs.length)
    (hlock : evs.get ⟨i, hij.trans hj⟩ = UiEvent.notif (Notif.lockChanged true))
    (hmid : ∀ m (_h1 : i < m) (h2 : m < j), clearsLock (evs.get ⟨m, h2.trans hj⟩) = false)
    (t : Target) (sx sy wx wy : ℚ)
    (hmd : evs.get ⟨j, hj⟩ = UiEvent.mouseDown t sx sy wx wy) :
    (runSt s0 (evs.take j)).main.isLocked = true ∧
    step (runSt s0 (evs.take j)) (evs.get ⟨j, hj⟩)
      = (runSt s0 (evs.take j), []) := by
  have hi : i < evs.length := hij.trans hj
  have hsplit : evs.take j = evs.take (i + 1) ++ (evs.drop (i + 1)).take (j - (i + 1)) := by
    rw [← List.take_add, Nat.add_sub_cancel' (by omega : i + 1 ≤ j)]
  have htake1 : evs.take (i + 1) = evs.take i ++ [evs.get ⟨i, hi⟩] := by
    rw [List.take_succ, List.getElem?_eq_getElem hi]
    rfl
  have hlock1 : (runSt s0 (evs.take (i + 1))).main.isLocked = true := by
    rw [htake1, runSt_append, hlock]
    rfl
  have hmidmem : ∀ e ∈ (evs.drop (i + 1)).take (j - (i + 1)), clearsLock e = false := by
    intro e he
    obtain ⟨k, hkl, hke⟩ := List.getElem_of_mem he
    have hkl' : k < j - (i + 1) := by
      have := hkl
      simp only [List.length_take, List.length_drop, lt_min_iff] at this
      omega
    have hkm : i + 1 + k < j := by omega
    have : ((evs.drop (i + 1)).take (j - (i + 1)))[k] = evs.get ⟨i + 1 + k, hkm.trans hj⟩ := by
      rw [List.getElem_take (evs.drop (i + 1)), List.getElem_drop evs]
      rfl
    rw [← hke, this]
    exact hmid (i + 1 + k) (by omega) hkm
  have hfinal : (runSt s0 (evs.take j)).main.isLocked = true := by
    rw [hsplit, runSt_append]
    exact runSt_lock_preserved _ _ hlock1 hmidmem
  refine ⟨hfinal, ?_⟩
  rw [hmd]
  simp [step, hfinal]

/-- A full surface state with the sample main state, zero drag locals and
the default cursor. -/
def s0Surface : SurfaceState :=
  { main := sExample, drag := ⟨0, 0, 0, 0⟩, cursorGrabbing := false }

/-- A concrete event trace: lock goes on, an unrelated size notification
arrives, then a mousedown on a non-interactive target. -/
def c4Evs : List UiEvent :=
  [.notif (.lockChanged true), .notif (.sizeChanged 12),
   .mouseDown ⟨Tag.div, false⟩ 1 2 3 4]

/-- Witness for C4 on the concrete trace: the interval hypotheses hold, the
flag is set when the mousedown arrives, and the mousedown is a no-op. -/
theorem c4_lock_gates_mousedown_witness :
    (0 : ℕ) < 2 ∧ 2 < c4Evs.length ∧
    c4Evs.get ⟨0, by decide⟩ = UiEvent.notif (Notif.lockChanged true) ∧
    (∀ m (_h1 : 0 < m) (h2 : m < 2), clearsLock (c4Evs.get ⟨m, h2.trans (by decide)⟩) = false) ∧
    (runSt s0Surface (c4Evs.take 2)).main.isLocked = true ∧
    step (runSt s0Surface (c4Evs.take 2)) (UiEvent.mouseDown ⟨Tag.div, false⟩ 1 2 3 4)
      = (runSt s0Surface (c4Evs.take 2), []) := by
  have hmid : ∀ m (_h1 : 0 < m) (h2 : m < 2),
      clearsLock (c4Evs.get ⟨m, h2.trans (by decide)⟩) = false := by
    intro m _h1 h2
    have hm : m = 1 := by omega
    subst hm
    rfl
  have h := c4_lock_gates_mousedown c4Evs s0Surface 0 2 (by decide) (by decide) rfl
    hmid ⟨Tag.div, false⟩ 1 2 3 4 rfl
  exact ⟨by decide, by decide, rfl, hmid, h.1, h.2⟩

/-- Recognizer for mousedown events. -/
def isMouseDownEvent : UiEvent → Bool
  | .mouseDown _ _ _ _ _ => true
  | _ => false

/-- No notification handler writes the dragging flag. -/
theorem applyNotif_isDragging (m : MainState) (n : Notif) :
    (applyNotif m n).isDragging = m.isDragging := by
  cases n <;> rfl

/-- While the dragging flag is down, any sequence of events without a
mousedown leaves the flag down and issues no request at all: mousemove and
mouseup are inert outside a drag, and notification handlers issue nothing
and do not touch the flag. -/
theorem noDrag_inert : ∀ (evs : List UiEvent) (s : SurfaceState),
    s.main.isDragging = false → (∀ e ∈ evs, isMouseDownEvent e = false) →
    (runSt s evs).main.isDragging = false ∧ runOut s evs = []
  | [], _, hd, _ => ⟨hd, rfl⟩
  | e :: rest, s, hd, h => by
    have he := h e (List.mem_cons_self e rest)
    have hstep : (stepSt s e).main.isDragging = false ∧ (step s e).2 = [] := by
      cases e with
      | notif n => exact ⟨(applyNotif_isDragging s.main n).trans hd, rfl⟩
      | sync p => exact ⟨hd, rfl⟩
      | mouseDown t sx sy wx wy => exact absurd he (by simp [isMouseDownEvent])
      | mouseMove sx sy => simp [stepSt, step, hd]
      | mouseUp => simp [stepSt, step, hd]
    have ihr := noDrag_inert rest (stepSt s e) hstep.1
      (fun x hx => h x (List.mem_cons_of_mem e hx))
    exact ⟨ihr.1, by simp [runOut, hstep.2, ihr.2]⟩

/-- C10: a mousedown whose target is a button element, an input element, or
an element with a button ancestor never initiates a drag, locked or not:
startDrag returns before writing any state and issues nothing, and the
whole remaining gesture (any following events without another mousedown)
keeps the dragging flag down and issues no window position change, nor any
other request. -/
theorem c10_interactive_target_never_drags (s : SurfaceState) (t : Target)
    (sx sy wx wy : ℚ)
    (ht : (t.tag == Tag.button || t.tag == Tag.input || t.closestButton) = true)
    (hd : s.main.isDragging = false)
    (rest : List UiEvent) (hrest : ∀ e ∈ rest, isMouseDownEvent e = false) :
    step s (UiEvent.mouseDown t sx sy wx wy) = (s, []) ∧
    (runSt s (UiEvent.mouseDown t sx sy wx wy :: rest)).main.isDragging = false ∧
    runOut s (UiEvent.mouseDown t sx sy wx wy :: rest) = [] := by
  have hstep : step s (UiEvent.mouseDown t sx sy wx wy) = (s, []) := by
    cases hl : s.main.isLocked <;> simp [step, hl, ht]
  have hst : stepSt s (UiEvent.mouseDown t sx sy wx wy) = s := by
    simp [stepSt, hstep]
  have ihr := noDrag_inert rest s hd hrest
  refine ⟨hstep, ?_, ?_⟩
  · show (runSt (stepSt s _) rest).main.isDragging = false
    rw [hst]
    exact ihr.1
  · show (step s _).2 ++ runOut (stepSt s _) rest = []
    rw [hstep, hst]
    simp [ihr.2]

/-- Witness for C10: a mousedown on a button target while unlocked and not
dragging, followed by a mousemove and a mouseup, changes nothing and issues
nothing. -/
theorem c10_interactive_target_never_drags_witness :
    ((Tag.button == Tag.button || Tag.button == Tag.input || true) = true) ∧
    s0Surface.main.isDragging = false ∧
    (∀ e ∈ [UiEvent.mouseMove 5 6, UiEvent.mouseUp], isMouseDownEvent e = false) ∧
    step s0Surface (UiEvent.mouseDown ⟨Tag.button, true⟩ 1 2 3 4) = (s0Surface, []) ∧
    (runSt s0Surface (UiEvent.mouseDown ⟨Tag.button, true⟩ 1 2 3 4 ::
      [UiEvent.mouseMove 5 6, UiEvent.mouseUp])).main.isDragging = false ∧
    runOut s0Surface (UiEvent.mouseDown ⟨Tag.button, true⟩ 1 2 3 4 ::
      [UiEvent.mouseMove 5 6, UiEvent.mouseUp]) = [] := by
  have h := c10_interactive_target_never_drags s0Surface ⟨Tag.button, true⟩ 1 2 3 4
    (by decide) rfl [UiEvent.mouseMove 5 6, UiEvent.mouseUp] (by decide)
  exact ⟨by decide, rfl, by decide, h.1, h.2.1, h.2.2⟩

/-- The two store reads issued by loadCrosshairGrid of main.ts (376-399),
in issue order. -/
def loadCrosshairGridCalls : List Cmd :=
  [Cmd.getCrosshairList, Cmd.getCrosshair]

/-- The open-chooser listener of main.ts (472-485): while the cached lock
flag is set it first awaits one toggleLock request, then awaits the grid
load, then unhides the chooser modal. Each await completes before the next
call site runs, so list order is completion order. -/
def openChooserHandler (s : MainState) : List Cmd :=
  (if s.isLocked then [Cmd.toggleLock] else []) ++
    loadCrosshairGridCalls ++ [Cmd.showChooserModal]

/-- C5: a chooser request finding the cached lock state set issues exactly
one toggleLock request, and that request completes before the chooser modal
is shown; a chooser request finding the lock state clear issues no lock
transition at all. -/
theorem c5_unlock_before_chooser (s : MainState) :
    (openChooserHandler s).count Cmd.toggleLock = (if s.isLocked then 1 else 0) ∧
    (if s.isLocked then
        ∃ pre post, openChooserHandler s = pre ++ Cmd.toggleLock :: post ∧
          Cmd.showChooserModal ∈ post ∧ Cmd.toggleLock ∉ pre ∧ Cmd.toggleLock ∉ post
      else Cmd.toggleLock ∉ openChooserHandler s) := by
  cases h : s.isLocked with
  | false =>
    refine ⟨?_, ?_⟩ <;> simp [openChooserHandler, loadCrosshairGridCalls, h]
  | true =>
    refine ⟨?_, ?_⟩
    · simp only [openChooserHandler, loadCrosshairGridCalls, h]
      decide
    · simp only [h, if_true]
      refine ⟨[], [Cmd.getCrosshairList, Cmd.getCrosshair, Cmd.showChooserModal], ?_, ?_, ?_, ?_⟩
      · simp [openChooserHandler, loadCrosshairGridCalls, h]
      · decide
      · decide
      · decide

/-- Toast severity levels accepted by showToast in settings.ts (156). -/
inductive ToastLevel
  | info
  | success
  | error
  deriving DecidableEq, Repr

/-- Requests and UI effects issued by the settings surface controller
(settings.ts), in issue order: store mutations, the save commit, toasts,
and the console log performed by the catch continuation of fire-and-forget
mutation call sites. -/
inductive SCmd
  | setSize (v : ℚ)
  | setOpacity (v : ℚ)
  | setColor (c : String)
  | setReticle (r : String)
  | savePreferences
  | toast (msg : String) (lvl : ToastLevel)
  | logError
  deriving DecidableEq, Repr

/-- Local UI state of the settings surface (settings.ts): the slider
values and texts, the two color controls, the reticle option carrying the
active class, the three toggle switches, and the grid item carrying the
active class in the crosshair grid. -/
structure SettingsState where
  sizeSliderValue : ℚ
  sizeValueText : String
  opacitySliderValue : ℤ
  opacityValueText : String
  colorPickerValue : String
  colorInputValue : String
  activeReticle : String
  followMouseChecked : Bool
  hideAdsChecked : Bool
  autostartChecked : Bool
  gridActiveCrosshair : String
  deriving DecidableEq, Repr

/-- settings.ts updateSizeUI (128-131). -/
def updateSizeUI (size : ℚ) (s : SettingsState) : SettingsState :=
  { s with sizeSliderValue := size, sizeValueText := toString size ++ "px" }

/-- settings.ts updateOpacityUI (133-136): both writes round the opacity
back to integer percent. -/
def updateOpacityUI (opacity : ℚ) (s : SettingsState) : SettingsState :=
  { s with
    opacitySliderValue := round (opacity * 100)
    opacityValueText := toString (round (opacity * 100)) ++ "%" }

/-- settings.ts updateColorUI (138-141): writes both color controls. -/
def updateColorUI (color : String) (s : SettingsState) : SettingsState :=
  { s with colorPickerValue := color, colorInputValue := color }

/-- settings.ts updateReticleUI (143-147): moves the active class to the
option whose data attribute equals the chosen type. -/
def updateReticleUI (t : String) (s : SettingsState) : SettingsState :=
  { s with activeReticle := t }

/-- One hexadecimal digit of the color pattern, lower or upper case. -/
def isHexDigit (ch : Char) : Bool :=
  ('0' ≤ ch && ch ≤ '9') || ('A' ≤ ch && ch ≤ 'F') || ('a' ≤ ch && ch ≤ 'f')

/-- Transcription of the regular expression used at settings.ts 261: a hash
sign followed by exactly six hexadecimal digits, anchored at both ends. -/
def matchesHexColorRegex (c : String) : Bool :=
  match c.toList with
  | '#' :: rest => rest.length == 6 && rest.all isHexDigit
  | _ => false

/-- User-interface events handled by the settings surface controller
(settings.ts setupEventListeners, 224-415). For slider events the payload
is the parseInt result of the slider value; for the color text input it is
the text at change time; for a reticle click it is the data attribute of
the clicked option, absent when the attribute is missing. -/
inductive SettingsEvent
  | sizeInput (v : ℚ)
  | sizeChange
  | opacityInput (v : ℚ)
  | opacityChange
  | colorPickerInput (c : String)
  | colorPickerChange
  | colorInputChange (c : String)
  | reticleClick (attr : Option String)
  deriving DecidableEq, Repr

/-- One step of the settings surface controller, translated handler by
handler from settings.ts setupEventListeners (224-279): intermediate input
events update the UI optimistically and issue one set mutation; change
events issue the save commit; the color text input validates against the
hex pattern before issuing anything; a reticle click falls back to the
sentinel none, updates the UI and issues the mutation plus commit. -/
def settingsStep (s : SettingsState) (e : SettingsEvent) : SettingsState × List SCmd :=
  match e with
  | .sizeInput v => (updateSizeUI v s, [SCmd.setSize v])
  | .sizeChange => (s, [SCmd.savePreferences])
  | .opacityInput v => (updateOpacityUI (v / 100) s, [SCmd.setOpacity (v / 100)])
  | .opacityChange => (s, [SCmd.savePreferences])
  | .colorPickerInput c => (updateColorUI c s, [SCmd.setColor c])
  | .colorPickerChange =>
    (s, [SCmd.savePreferences, SCmd.toast "Color updated" ToastLevel.success])
  | .colorInputChange c =>
    if matchesHexColorRegex c then
      (updateColorUI c s,
        [SCmd.setColor c, SCmd.savePreferences, SCmd.toast "Color updated" ToastLevel.success])
    else
      (s, [SCmd.toast "Invalid color format (use #RRGGBB)" ToastLevel.error])
  | .reticleClick attr =>
    (updateReticleUI (attr.getD "none") s,
      [SCmd.setReticle (attr.getD "none"), SCmd.savePreferences])

/-- State after a sequence of settings surface events. -/
def settingsRunSt (s : SettingsState) (evs : List SettingsEvent) : SettingsState :=
  evs.foldl (fun s e => (settingsStep s e).1) s

/-- Concatenated effects of a sequence of settings surface events. -/
def settingsRunOut (s : SettingsState) : List SettingsEvent → List SCmd
  | [] => []
  | e :: rest => (settingsStep s e).2 ++ settingsRunOut (settingsStep s e).1 rest

/-- The intermediate events of a continuous-input gesture: input events on
the two sliders and on the color picker. -/
def isIntermediateInput : SettingsEvent → Bool
  | .sizeInput _ => true
  | .opacityInput _ => true
  | .colorPickerInput _ => true
  | _ => false

/-- The gesture-end events of the continuous-input controls: their change
events, fired once on pointer release or blur. -/
def isGestureEnd : SettingsEvent → Bool
  | .sizeChange => true
  | .opacityChange => true
  | .colorPickerChange => true
  | _ => false

/-- Store mutation requests, as opposed to commits, toasts and logs. -/
def isSetMutation : SCmd → Bool
  | .setSize _ => true
  | .setOpacity _ => true
  | .setColor _ => true
  | .setReticle _ => true
  | _ => false

/-- Effects over concatenation of event sequences. -/
theorem settingsRunOut_append (s : SettingsState) (l₁ l₂ : List SettingsEvent) :
    settingsRunOut s (l₁ ++ l₂)
      = settingsRunOut s l₁ ++ settingsRunOut (settingsRunSt s l₁) l₂ := by
  induction l₁ generalizing s with
  | nil => rfl
  | cons e rest ih =>
    show (settingsStep s e).2 ++ settingsRunOut (settingsStep s e).1 (rest ++ l₂)
      = ((settingsStep s e).2 ++ settingsRunOut (settingsStep s e).1 rest)
        ++ settingsRunOut (settingsRunSt (settingsStep s e).1 rest) l₂
    rw [ih, List.append_assoc]

/-- A run of intermediate input events issues no commit and exactly one set
mutation per event. -/
theorem intermediate_no_commit : ∀ (l : List SettingsEvent) (s : SettingsState),
    (∀ e ∈ l, isIntermediateInput e = true) →
    (settingsRunOut s l).count SCmd.savePreferences = 0 ∧
    (settingsRunOut s l).countP isSetMutation = l.length
  | [], _, _ => ⟨rfl, rfl⟩
  | e :: rest, s, h => by
    have he := h e (List.mem_cons_self e rest)
    have ihr := intermediate_no_commit rest (settingsStep s e).1
      (fun x hx => h x (List.mem_cons_of_mem e hx))
    have hcmds : (settingsStep s e).2.count SCmd.savePreferences = 0 ∧
        (settingsStep s e).2.countP isSetMutation = 1 := by
      cases e with
      | sizeInput v => exact ⟨rfl, rfl⟩
      | opacityInput v => exact ⟨rfl, rfl⟩
      | colorPickerInput c => exact ⟨rfl, rfl⟩
      | sizeChange => exact absurd he (by simp [isIntermediateInput])
      | opacityChange => exact absurd he (by simp [isIntermediateInput])
      | colorPickerChange => exact absurd he (by simp [isIntermediateInput])
      | colorInputChange c => exact absurd he (by simp [isIntermediateInput])
      | reticleClick attr => exact absurd he (by simp [isIntermediateInput])
    show ((settingsStep s e).2 ++ settingsRunOut (settingsStep s e).1 rest).count
        SCmd.savePreferences = 0 ∧
      ((settingsStep s e).2 ++ settingsRunOut (settingsStep s e).1 rest).countP
        isSetMutation = (e :: rest).length
    rw [List.count_append, List.countP_append, hcmds.1, hcmds.2, ihr.1, ihr.2]
    exact ⟨rfl, by simp [Nat.add_comm]⟩

/-- C6: a continuous-input gesture of any number of intermediate input
events on a slider or the color picker, closed by exactly one gesture-end
change event, issues exactly one save commit, and exactly one set mutation
per intermediate event. -/
theorem c6_debounce_one_commit (s : SettingsState) (inputs : List SettingsEvent)
    (hin : ∀ e ∈ inputs, isIntermediateInput e = true)
    (g : SettingsEvent) (hg : isGestureEnd g = true) :
    (settingsRunOut s (inputs ++ [g])).count SCmd.savePreferences = 1 ∧
    (settingsRunOut s (inputs ++ [g])).countP isSetMutation = inputs.length := by
  have hmain := intermediate_no_commit inputs s hin
  have hgc : (settingsRunOut (settingsRunSt s inputs) [g]).count SCmd.savePreferences = 1 ∧
      (settingsRunOut (settingsRunSt s inputs) [g]).countP isSetMutation = 0 := by
    cases g with
    | sizeChange => exact ⟨rfl, rfl⟩
    | opacityChange => exact ⟨rfl, rfl⟩
    | colorPickerChange => exact ⟨rfl, rfl⟩
    | sizeInput v => exact absurd hg (by simp [isGestureEnd])
    | opacityInput v => exact absurd hg (by simp [isGestureEnd])
    | colorPickerInput c => exact absurd hg (by simp [isGestureEnd])
    | colorInputChange c => exact absurd hg (by simp [isGestureEnd])
    | reticleClick attr => exact absurd hg (by simp [isGestureEnd])
  rw [settingsRunOut_append, List.count_append, List.countP_append,
    hmain.1, hmain.2, hgc.1, hgc.2]
  exact ⟨rfl, rfl⟩

/-- A sample settings surface state used by concrete witnesses. -/
def settingsExample : SettingsState :=
  { sizeSliderValue := 32, sizeValueText := "32px", opacitySliderValue := 100,
    opacityValueText := "100%", colorPickerValue := "#00FF00",
    colorInputValue := "#00FF00", activeReticle := "none",
    followMouseChecked := false, hideAdsChecked := false,
    autostartChecked := false, gridActiveCrosshair := "crosshair-default.png" }

/-- Witness for C6: three slider input events followed by one change event
issue one commit and three set mutations. -/
theorem c6_debounce_one_commit_witness :
    (∀ e ∈ [SettingsEvent.sizeInput 20, SettingsEvent.sizeInput 30, SettingsEvent.sizeInput 40],
      isIntermediateInput e = true) ∧
    isGestureEnd SettingsEvent.sizeChange = true ∧
    (settingsRunOut settingsExample
      ([SettingsEvent.sizeInput 20, SettingsEvent.sizeInput 30, SettingsEvent.sizeInput 40] ++
        [SettingsEvent.sizeChange])).count SCmd.savePreferences = 1 ∧
    (settingsRunOut settingsExample
      ([SettingsEvent.sizeInput 20, SettingsEvent.sizeInput 30, SettingsEvent.sizeInput 40] ++
        [SettingsEvent.sizeChange])).countP isSetMutation
      = [SettingsEvent.sizeInput 20, SettingsEvent.sizeInput 30,
          SettingsEvent.sizeInput 40].length := by
  have h := c6_debounce_one_commit settingsExample
    [SettingsEvent.sizeInput 20, SettingsEvent.sizeInput 30, SettingsEvent.sizeInput 40]
    (by decide) SettingsEvent.sizeChange rfl
  exact ⟨by decide, rfl, h.1, h.2⟩

/-- Recognizer for setColor requests. -/
def isSetColor : SCmd → Bool
  | .setColor _ => true
  | _ => false

/-- C7: submitting a string through the color text input issues a setColor
request exactly when the string matches the anchored hex pattern; the
string of six z characters fails the pattern, produces only the local error
toast and leaves the controller state untouched; the sample valid string
matches and produces exactly one setColor request for it followed by
exactly one save commit (and the success toast), in that order. -/
theorem c7_color_validation (c : String) (s : SettingsState) :
    ((settingsStep s (SettingsEvent.colorInputChange c)).2.countP isSetColor
        = if matchesHexColorRegex c then 1 else 0) ∧
    matchesHexColorRegex "#zzzzzz" = false ∧
    settingsStep s (SettingsEvent.colorInputChange "#zzzzzz")
      = (s, [SCmd.toast "Invalid color format (use #RRGGBB)" ToastLevel.error]) ∧
    matchesHexColorRegex "#1a2b3c" = true ∧
    (settingsStep s (SettingsEvent.colorInputChange "#1a2b3c")).2
      = [SCmd.setColor "#1a2b3c", SCmd.savePreferences,
          SCmd.toast "Color updated" ToastLevel.success] ∧
    (settingsStep s (SettingsEvent.colorInputChange "#1a2b3c")).2.countP isSetColor = 1 ∧
    (settingsStep s (SettingsEvent.colorInputChange "#1a2b3c")).2.count
      SCmd.savePreferences = 1 := by
  refine ⟨?_, rfl, rfl, rfl, rfl, rfl, rfl⟩
  cases h : matchesHexColorRegex c <;> simp [settingsStep, h, isSetColor]

/-- Requests sent to the store, as opposed to local toasts and logs. -/
def isRequest : SCmd → Bool
  | .toast _ _ => false
  | .logError => false
  | _ => true

/-- Semantics of a fire-and-forget mutation call site with a catch
continuation that only logs (settings.ts 229, 240, 250): the request is
issued exactly once, and if the promise rejects the continuation logs the
error and performs no state write and no reissue. -/
def fallibleCall (cmd : SCmd) (fails : Bool) : List SCmd :=
  cmd :: (if fails then [SCmd.logError] else [])

/-- The size slider input handler (settings.ts 226-230) with an explicit
outcome for its setSize request: the optimistic UI update runs before the
request either way. -/
def sizeInputFallible (v : ℚ) (fails : Bool) (s : SettingsState) :
    SettingsState × List SCmd :=
  (updateSizeUI v s, fallibleCall (SCmd.setSize v) fails)

/-- The opacity slider input handler (settings.ts 237-241) with an explicit
outcome for its setOpacity request. -/
def opacityInputFallible (v : ℚ) (fails : Bool) (s : SettingsState) :
    SettingsState × List SCmd :=
  (updateOpacityUI (v / 100) s, fallibleCall (SCmd.setOpacity (v / 100)) fails)

/-- The color picker input handler (settings.ts 248-251) with an explicit
outcome for its setColor request. -/
def colorPickerInputFallible (c : String) (fails : Bool) (s : SettingsState) :
    SettingsState × List SCmd :=
  (updateColorUI c s, fallibleCall (SCmd.setColor c) fails)

/-- C9: when the set mutation of a continuous-input handler fails, the
optimistic local state written before the request is exactly the state
left after the failure (identical to the success case), the request was
issued exactly once and is not reissued, and the only additional effect of
the failure is the console log. The success case of each fallible handler
coincides with the main controller model. -/
theorem c9_failed_set_leaves_optimistic_state (v p : ℚ) (c : String) (s : SettingsState) :
    ((sizeInputFallible v true s).1 = (sizeInputFallible v false s).1 ∧
      (sizeInputFallible v true s).1 = updateSizeUI v s ∧
      (sizeInputFallible v true s).2.filter isRequest = [SCmd.setSize v] ∧
      (sizeInputFallible v true s).2.filter (fun x => !isRequest x) = [SCmd.logError] ∧
      sizeInputFallible v false s = settingsStep s (SettingsEvent.sizeInput v)) ∧
    ((opacityInputFallible p true s).1 = (opacityInputFallible p false s).1 ∧
      (opacityInputFallible p true s).1 = updateOpacityUI (p / 100) s ∧
      (opacityInputFallible p true s).2.filter isRequest = [SCmd.setOpacity (p / 100)] ∧
      (opacityInputFallible p true s).2.filter (fun x => !isRequest x) = [SCmd.logError] ∧
      opacityInputFallible p false s = settingsStep s (SettingsEvent.opacityInput p)) ∧
    ((colorPickerInputFallible c true s).1 = (colorPickerInputFallible c false s).1 ∧
      (colorPickerInputFallible c true s).1 = updateColorUI c s ∧
      (colorPickerInputFallible c true s).2.filter isRequest = [SCmd.setColor c] ∧
      (colorPickerInputFallible c true s).2.filter (fun x => !isRequest x) = [SCmd.logError] ∧
      colorPickerInputFallible c false s = settingsStep s (SettingsEvent.colorPickerInput c)) :=
  ⟨⟨rfl, rfl, rfl, rfl, rfl⟩, ⟨rfl, rfl, rfl, rfl, rfl⟩, ⟨rfl, rfl, rfl, rfl, rfl⟩⟩

/-- The get-style IPC reads a surface can issue while it is being created,
including the catalog read and the autostart plugin query. -/
inductive ReadOp
  | getCrosshair
  | getSize
  | getOpacity
  | getColor
  | isLocked
  | getReticle
  | getFollowMouse
  | getHideOnAds
  | autostartIsEnabled
  | getCrosshairList
  deriving DecidableEq, Repr

/-- The Promise.all batch of main.ts loadInitialState (569-575). -/
def mainInitialBatchReads : List ReadOp :=
  [.getCrosshair, .getSize, .getOpacity, .getColor, .isLocked]

/-- The reads of loadCrosshairGrid (main.ts 376-399, settings.ts 177-192):
the catalog list plus the current crosshair used to mark the active item. -/
def crosshairGridReads : List ReadOp :=
  [.getCrosshairList, .getCrosshair]

/-- Whether the statement sequence of main.ts loadInitialState lines
577-581 (the same five calls as the sync listener body) runs to completion
without a ReferenceError: false, because updateSize throws. -/
def mainUpdateSequenceCompletes : Bool :=
  updateCrosshairImageCompletes && updateSizeCompletes &&
    updateOpacityCompletes && updateColorCompletes && updateLockStateCompletes

/-- All reads issued while the primary surface is created: loadInitialState
issues its Promise.all batch, and the await of loadCrosshairGrid at main.ts
583 is reached only if the update sequence of 577-581 completes; at runtime
it does not (the ReferenceError is caught at 584), so the grid reads are
never issued during primary-surface creation. -/
def mainCreationReads : List ReadOp :=
  mainInitialBatchReads ++
    (if mainUpdateSequenceCompletes then crosshairGridReads else [])

/-- The Promise.all batch of settings.ts loadInitialState (424-432). -/
def settingsInitialBatchReads : List ReadOp :=
  [.getSize, .getOpacity, .getColor, .getReticle, .getFollowMouse,
   .getHideOnAds, .autostartIsEnabled]

/-- All reads issued while the settings surface is created (settings.ts
443 calls loadCrosshairGrid after the batch). -/
def settingsCreationReads : List ReadOp :=
  settingsInitialBatchReads ++ crosshairGridReads

/-- The Promise.all batch of the earlier settings revision, file
src/unnamed/part_000 lines 341-346: it reads the crosshair along with
size, opacity and color. -/
def oldSettingsInitialBatchReads : List ReadOp :=
  [.getCrosshair, .getSize, .getOpacity, .getColor]

/-- All reads issued while the earlier settings revision is created. -/
def oldSettingsCreationReads : List ReadOp :=
  oldSettingsInitialBatchReads ++ crosshairGridReads

/-- The authoritative store at hydration time: the value each read
returns. -/
structure Store where
  crosshair : String
  size : ℚ
  opacity : ℚ
  color : String
  locked : Bool
  reticle : String
  followMouse : Bool
  hideOnAds : Bool
  autostart : Bool
  deriving DecidableEq, Repr

/-- The update sequence of main.ts loadInitialState (577-581) under
runtime exception semantics: the five batch results are passed to the same
five update calls as in the bulk sync listener, each guarded by the
completion of the calls before it; the second component tells whether the
sequence completed (false, updateSize throws). -/
def hydrateMainRun (st : Store) (s : MainState) : MainState × Bool :=
  seqCall (seqCall (seqCall (seqCall (seqCall (s, true)
    (updateCrosshairImage st.crosshair) updateCrosshairImageCompletes)
    (updateSize st.size) updateSizeCompletes)
    (updateOpacity st.opacity) updateOpacityCompletes)
    (updateColor st.color) updateColorCompletes)
    (updateLockState st.locked) updateLockStateCompletes

/-- The state main.ts loadInitialState leaves behind at runtime: crosshair
and the size wrapper writes applied, the rest aborted by the ReferenceError
(caught at main.ts 584). -/
def hydrateMain (st : Store) (s : MainState) : MainState :=
  (hydrateMainRun st s).1

/-- A concrete store whose opacity differs from the sample surface state. -/
def storeEx : Store :=
  { crosshair := "cross-a.png", size := 24, opacity := 1 / 2,
    color := "#123456", locked := true, reticle := "circle",
    followMouse := false, hideOnAds := false, autostart := false }

/-- settings.ts loadInitialState (434-441): the batch results are applied
through the UI update functions and the three toggle updates. -/
def hydrateSettings (st : Store) (s : SettingsState) : SettingsState :=
  let s1 := updateReticleUI st.reticle
    (updateColorUI st.color (updateOpacityUI st.opacity (updateSizeUI st.size s)))
  { s1 with
    followMouseChecked := st.followMouse
    hideAdsChecked := st.hideOnAds
    autostartChecked := st.autostart }

/-- loadCrosshairGrid of settings.ts (177-192): rebuilds the grid and marks
the item equal to the current crosshair read back from the store. -/
def settingsLoadCrosshairGrid (st : Store) (s : SettingsState) : SettingsState :=
  { s with gridActiveCrosshair := st.crosshair }

/-- Settings surface creation: hydration batch, then the grid load. -/
def settingsCreate (st : Store) (s : SettingsState) : SettingsState :=
  settingsLoadCrosshairGrid st (hydrateSettings st s)

/-- loadInitialState of the earlier settings revision (part_000 348-350):
only size, opacity and color are applied; the crosshair binding of the
batch is destructured but used nowhere. -/
def oldSettingsHydrate (st : Store) (s : SettingsState) : SettingsState :=
  updateColorUI st.color (updateOpacityUI st.opacity (updateSizeUI st.size s))

/-- C8 counterexample: at primary-surface creation the opacity is fetched
by exactly one get read, yet its value is never applied: the ReferenceError
inside updateSize aborts the hydration sequence before updateOpacity runs,
so with the store reporting opacity one half the surface keeps its prior
wrapper opacity of one. A readable field is fetched without being applied,
contradicting the claim (the same holds for color and the lock flag). -/
theorem c8_counterexample :
    mainCreationReads.count ReadOp.getOpacity = 1 ∧
    storeEx.opacity = 1 / 2 ∧ sExample.wrapperOpacity = 1 ∧
    (hydrateMain storeEx sExample).wrapperOpacity = 1 :=
  ⟨rfl, rfl, rfl, rfl⟩

/-- C8 (amended): at creation the settings surface reads each of its seven
readable fields (and the autostart flag and the catalog) exactly once and
applies every one of them. The primary surface reads each of its five
batch fields exactly once, but applies only the crosshair and the size:
the ReferenceError inside updateSize aborts hydration, so opacity, color
and the lock flag are fetched without being applied, the grid load with
its catalog read is skipped, and reticle, follow mouse and the ad toggle
are never read. In the earlier settings revision the crosshair value of
the initial batch is fetched but never applied, so the hydrated state does
not depend on it. -/
theorem c8_hydration_amended :
    (settingsCreationReads.count ReadOp.getSize = 1 ∧
      settingsCreationReads.count ReadOp.getOpacity = 1 ∧
      settingsCreationReads.count ReadOp.getColor = 1 ∧
      settingsCreationReads.count ReadOp.getReticle = 1 ∧
      settingsCreationReads.count ReadOp.getFollowMouse = 1 ∧
      settingsCreationReads.count ReadOp.getHideOnAds = 1 ∧
      settingsCreationReads.count ReadOp.autostartIsEnabled = 1 ∧
      settingsCreationReads.count ReadOp.getCrosshair = 1 ∧
      settingsCreationReads.count ReadOp.getCrosshairList = 1) ∧
    (∀ (st : Store) (s : SettingsState),
      (settingsCreate st s).sizeSliderValue = st.size ∧
      (settingsCreate st s).opacitySliderValue = round (st.opacity * 100) ∧
      (settingsCreate st s).colorPickerValue = st.color ∧
      (settingsCreate st s).colorInputValue = st.color ∧
      (settingsCreate st s).activeReticle = st.reticle ∧
      (settingsCreate st s).followMouseChecked = st.followMouse ∧
      (settingsCreate st s).hideAdsChecked = st.hideOnAds ∧
      (settingsCreate st s).autostartChecked = st.autostart ∧
      (settingsCreate st s).gridActiveCrosshair = st.crosshair) ∧
    (mainCreationReads.count ReadOp.getSize = 1 ∧
      mainCreationReads.count ReadOp.getOpacity = 1 ∧
      mainCreationReads.count ReadOp.getColor = 1 ∧
      mainCreationReads.count ReadOp.isLocked = 1 ∧
      mainCreationReads.count ReadOp.getCrosshair = 1 ∧
      mainCreationReads.count ReadOp.getCrosshairList = 0 ∧
      mainCreationReads.count ReadOp.getReticle = 0 ∧
      mainCreationReads.count ReadOp.getFollowMouse = 0 ∧
      mainCreationReads.count ReadOp.getHideOnAds = 0) ∧
    (∀ (st : Store) (s : MainState),
      (hydrateMain st s).imgSrc = "/crosshairs/" ++ st.crosshair ∧
      (hydrateMain st s).wrapperSize = st.size ∧
      (hydrateMainRun st s).2 = false ∧
      (hydrateMain st s).wrapperOpacity = s.wrapperOpacity ∧
      (hydrateMain st s).wrapperColor = s.wrapperColor ∧
      (hydrateMain st s).isLocked = s.isLocked) ∧
    (oldSettingsCreationReads.count ReadOp.getCrosshair = 2 ∧
      ∀ (st : Store) (s : SettingsState) (c : String),
        oldSettingsHydrate st s = oldSettingsHydrate { st with crosshair := c } s) :=
  ⟨by decide,
   fun _ _ => ⟨rfl, rfl, rfl, rfl, rfl, rfl, rfl, rfl, rfl⟩,
   by decide,
   fun _ _ => ⟨rfl, rfl, rfl, rfl, rfl, rfl⟩,
   by decide,
   fun _ _ _ => rfl⟩

/-- C2 finding: the size-changed, opacity-changed and color-changed
listeners of the primary surface call update functions whose bodies
reference identifiers that do not resolve anywhere in main.ts (they are
module-scope bindings of settings.ts, a different window and module), so
those handlers cannot execute without error; the lock, crosshair and
visibility listeners reference only resolving identifiers. -/
theorem c2_undefined_identifiers_in_handlers :
    ("sizeSlider" ∈ updateSizeFreeIds ∧ resolvesInMain "sizeSlider" = false) ∧
    ("sizeValue" ∈ updateSizeFreeIds ∧ resolvesInMain "sizeValue" = false) ∧
    ("opacitySlider" ∈ updateOpacityFreeIds ∧ resolvesInMain "opacitySlider" = false) ∧
    ("opacityValue" ∈ updateOpacityFreeIds ∧ resolvesInMain "opacityValue" = false) ∧
    ("colorPicker" ∈ updateColorFreeIds ∧ resolvesInMain "colorPicker" = false) ∧
    ("colorInput" ∈ updateColorFreeIds ∧ resolvesInMain "colorInput" = false) ∧
    (∀ x ∈ updateLockStateFreeIds, resolvesInMain x = true) ∧
    (∀ x ∈ updateCrosshairImageFreeIds, resolvesInMain x = true) ∧
    (∀ x ∈ visibilityListenerFreeIds, resolvesInMain x = true) ∧
    "sizeSlider" ∈ settingsModuleScopeIds ∧
    "opacitySlider" ∈ settingsModuleScopeIds ∧
    "colorPicker" ∈ settingsModuleScopeIds := by
  decide

end Crossover
